import Mathlib

/-
Verification of the htmlcreator HTML document builder
(src/htmlcreator/document.py) against its natural-language specification.

The Python class `HTMLDocument` is shallowly embedded: the mutable object
becomes a record of its five fields, every method becomes a function from
the record to a new record, and a method that can raise becomes a function
returning the raised error (if any) together with the object state at the
moment the exception propagates.  External collaborators (pandas `to_html`,
PIL PNG encoding, file reads, plotly `to_html`) are modelled by carrying
their output inside the input value, since the Python code treats them as
black boxes.
-/

/-- Python exceptions raised by the module, identified by class and message. -/
inductive PyError where
  | typeError (msg : String)
  | runtimeError (msg : String)
  deriving DecidableEq, Repr

/-- A Python value passed for an optional `title` / `height` / `width`
argument: `None`, an `int`, or a `str`.  Truthiness follows Python. -/
inductive Attr where
  | pyNone
  | int (n : Int)
  | str (s : String)
  deriving DecidableEq, Repr

/-- Python truthiness of an `Attr` value (`None`, `0` and `""` are falsy). -/
def Attr.truthy : Attr → Bool
  | .pyNone => false
  | .int n => decide (n ≠ 0)
  | .str s => decide (s ≠ "")

/-- The text an f-string interpolation produces for an `Attr` value. -/
def Attr.fmt : Attr → String
  | .pyNone => "None"
  | .int n => toString n
  | .str s => s

/-- A pandas DataFrame, modelled by the HTML table string its external
`to_html` renderer produces. -/
structure DataFrame where
  toHtml : String
  deriving DecidableEq, Repr

/-- The dynamic argument of `add_table`: a DataFrame or a value of some
other Python type (carried as its type name). -/
inductive TableInput where
  | dataframe (df : DataFrame)
  | other (typeName : String)
  deriving DecidableEq, Repr

/-- The dynamic argument of `add_image_link`: a `pathlib.Path`, a `str`,
or a value of some other Python type. -/
inductive PathOrStr where
  | path (s : String)
  | str (s : String)
  | other (typeName : String)
  deriving DecidableEq, Repr

/-- The dynamic argument of `add_image` / `_encode_image`.  A numpy array
carries its dtype name, its number of dimensions and the byte string the
external PIL PNG encoder would produce for it; a PIL image likewise carries
its PNG encoding; a `pathlib.Path` or `str` carries the raw bytes read from
the file at that path.  Bytes are naturals below 256. -/
inductive ImageInput where
  | ndarray (dtype : String) (ndim : Nat) (pngBytes : List Nat)
  | pilImage (pngBytes : List Nat)
  | path (fileBytes : List Nat)
  | str (fileBytes : List Nat)
  | other (typeName : String)
  deriving DecidableEq, Repr

/-- The three runtime-inclusion modes passed to plotly `to_html` as its
`include_plotlyjs` argument: `True` (embed the runtime inline), `False`
(omit it) and the string `cdn` (reference it from a CDN). -/
inductive PlotlyMode where
  | inline
  | omit
  | cdn
  deriving DecidableEq, Repr

/-- A plotly figure, modelled by what the external fragment renderer
`plotly.io.to_html(fig, full_html=False, include_plotlyjs=mode)` returns
for it in each mode — an HTML fragment, or an exception. -/
structure Figure where
  toHtml : PlotlyMode → Except PyError String

/-- The dynamic argument of `add_plotly_figure`: a figure or a value of
some other Python type. -/
inductive FigInput where
  | figure (fig : Figure)
  | other (typeName : String)

/-! ## Base64 (`base64.b64encode` / `base64.b64decode`, RFC 4648) -/

/-- The standard base64 alphabet. -/
def b64str : String :=
  "ABCDEFGHIJKLMNOPQRSTUVWXYZabcdefghijklmnopqrstuvwxyz0123456789+/"

/-- The base64 digit for a 6-bit value. -/
def b64char (n : Nat) : Char :=
  b64str.toList.getD n 'A'

/-- The 6-bit value of a base64 digit, if it is one. -/
def b64val (c : Char) : Option Nat :=
  b64str.toList.findIdx? (fun d => d = c)

/-- `base64.b64encode` on a byte string, as a character list. -/
def b64encodeList : List Nat → List Char
  | [] => []
  | [a] => [b64char (a / 4), b64char (a % 4 * 16), '=', '=']
  | [a, b] => [b64char (a / 4), b64char (a % 4 * 16 + b / 16), b64char (b % 16 * 4), '=']
  | a :: b :: c :: rest =>
      b64char (a / 4) :: b64char (a % 4 * 16 + b / 16) ::
        b64char (b % 16 * 4 + c / 64) :: b64char (c % 64) :: b64encodeList rest

/-- `base64.b64encode(...).decode("utf-8")`: the base64 string. -/
def b64encode (bs : List Nat) : String :=
  String.mk (b64encodeList bs)

/-- `base64.b64decode` on a character list (strict: padding only at the
end), returning the byte string if the input is well-formed base64. -/
def b64decode : List Char → Option (List Nat)
  | [] => some []
  | c1 :: c2 :: c3 :: c4 :: rest =>
      match b64val c1, b64val c2 with
      | some v1, some v2 =>
        if c3 = '=' then
          if c4 = '=' ∧ rest = [] then some [v1 * 4 + v2 / 16] else none
        else
          match b64val c3 with
          | some v3 =>
            if c4 = '=' then
              if rest = [] then some [v1 * 4 + v2 / 16, v2 % 16 * 16 + v3 / 4] else none
            else
              match b64val c4, b64decode rest with
              | some v4, some tl =>
                  some ((v1 * 4 + v2 / 16) :: (v2 % 16 * 16 + v3 / 4) :: (v3 % 4 * 64 + v4) :: tl)
              | _, _ => none
          | none => none
      | _, _ => none
  | _ => none

/-! ## The `HTMLDocument` class -/

/-- The state of an `HTMLDocument` object: its five instance attributes. -/
structure HTMLDocument where
  style : String
  title : String
  head : String
  body : String
  is_plotlyjs_included : Bool
  deriving DecidableEq, Repr

/-- `HTMLDocument.__init__`: empty head and body, title set to the class
name, flag cleared, and the style set (via `_set_default_style` /
`set_style`) to the content of the bundled `style.css` resource, which is
passed in as `defaultStyle`. -/
def HTMLDocument.init (defaultStyle : String) : HTMLDocument :=
  { style := defaultStyle
    title := "HTMLDocument"
    head := ""
    body := ""
    is_plotlyjs_included := false }

/-- `HTMLDocument.__str__`: the serialized document, as the source builds
it from adjacent string literals and f-strings. -/
def HTMLDocument.render (d : HTMLDocument) : String :=
  "<!DOCTYPE html>\n"
    ++ "<html lang=\"en\">\n"
    ++ "<head>\n"
    ++ "<meta charset=\"UTF-8\">\n"
    ++ ("<title>" ++ d.title ++ "</title>\n")
    ++ ("<style type=\"text/css\">\n" ++ d.style ++ "</style>\n")
    ++ d.head
    ++ "</head>\n"
    ++ "<body>\n"
    ++ d.body
    ++ "</body>\n"
    ++ "</html>\n"

/-- `add_header`. -/
def HTMLDocument.add_header (d : HTMLDocument) (header : String)
    (level : String := "h2") (align : String := "left") : HTMLDocument :=
  { d with body := d.body ++
      ("<" ++ level ++ " style=\"text-align: " ++ align ++ "\">"
        ++ header ++ "</" ++ level ++ ">\n") }

/-- `add_text`. -/
def HTMLDocument.add_text (d : HTMLDocument) (text : String)
    (size : String := "16px") (indent : String := "0")
    (align : String := "left") : HTMLDocument :=
  { d with body := d.body ++
      ("<p style=\"font-size:" ++ size ++ "; text-indent: " ++ indent
        ++ "; text-align: " ++ align ++ "\">" ++ text ++ "</p>\n") }

/-- `add_line_break`. -/
def HTMLDocument.add_line_break (d : HTMLDocument) : HTMLDocument :=
  { d with body := d.body ++ "<br>\n" }

/-- `add_page_break`. -/
def HTMLDocument.add_page_break (d : HTMLDocument) : HTMLDocument :=
  { d with body := d.body ++ "<p style=\"page-break-after: always;\">&nbsp;</p>\n" }

/-- `add_table`: type-check the argument, then append the wrapped
`df.to_html()` output. -/
def HTMLDocument.add_table (d : HTMLDocument) (df : TableInput) :
    Option PyError × HTMLDocument :=
  match df with
  | .other t =>
      (some (.typeError ("df is of type " ++ t
        ++ ", but it should be of type pandas.core.frame.DataFrame.")), d)
  | .dataframe x =>
      (none, { d with body := d.body ++
        ("<div class=\"pandas-dataframe\">\n" ++ x.toHtml ++ "\n</div>\n") })

/-- `set_style`. -/
def HTMLDocument.set_style (d : HTMLDocument) (style : String) : HTMLDocument :=
  { d with style := style }

/-- `set_title`. -/
def HTMLDocument.set_title (d : HTMLDocument) (title : String) : HTMLDocument :=
  { d with title := title }

/-- `_add_image_tag`: the image tag built up by successive appends, as in
the source. -/
def image_tag (src : String) (title height width : Attr) (pixelated : Bool) :
    String :=
  let t0 := "<img src=\"" ++ src ++ "\""
  let t1 := if title.truthy then t0 ++ (" title=\"" ++ title.fmt ++ "\"") else t0
  let t2 := if height.truthy then t1 ++ (" height=" ++ height.fmt) else t1
  let t3 := if width.truthy then t2 ++ (" width=" ++ width.fmt) else t2
  let t4 := t3 ++ " style=\"border:1px solid #021a40; margin: 3px 3px"
  let t5 := if pixelated then t4 ++ "; image-rendering: pixelated" else t4
  t5 ++ "\">\n"

/-- `_add_image_tag`, appending the tag to the body. -/
def HTMLDocument._add_image_tag (d : HTMLDocument) (src : String)
    (title height width : Attr) (pixelated : Bool) : HTMLDocument :=
  { d with body := d.body ++ image_tag src title height width pixelated }

/-- `_encode_image`: dispatch on the dynamic type of the argument, check
dtype then ndim for arrays, and base64-encode the produced bytes. -/
def HTMLDocument._encode_image (image : ImageInput) : Except PyError String :=
  match image with
  | .ndarray dtype ndim png =>
      if dtype ≠ "uint8" then
        .error (.runtimeError ("image.dtype is " ++ dtype
          ++ ", but it should be uint8."))
      else if ¬ (ndim = 2 ∨ ndim = 3) then
        .error (.runtimeError ("image.ndim is " ++ toString ndim
          ++ ", but it should be 2 or 3."))
      else
        .ok (b64encode png)
  | .pilImage png => .ok (b64encode png)
  | .path bytes => .ok (b64encode bytes)
  | .str bytes => .ok (b64encode bytes)
  | .other t =>
      .error (.typeError ("image is of type " ++ t
        ++ ", but it should be one of: numpy.ndarray, PIL.Image.Image, "
        ++ "pathlib.Path or str."))

/-- `add_image`: encode, then embed with the `data:image/png;base64, `
prefix (note the space after the comma, as in the source f-string). -/
def HTMLDocument.add_image (d : HTMLDocument) (image : ImageInput)
    (title height width : Attr) (pixelated : Bool) :
    Option PyError × HTMLDocument :=
  match HTMLDocument._encode_image image with
  | .error e => (some e, d)
  | .ok s =>
      (none, d._add_image_tag ("data:image/png;base64, " ++ s)
        title height width pixelated)

/-- `add_image_link`: type-check, then embed the literal path or URL. -/
def HTMLDocument.add_image_link (d : HTMLDocument) (image_link : PathOrStr)
    (title height width : Attr) (pixelated : Bool) :
    Option PyError × HTMLDocument :=
  match image_link with
  | .path s => (none, d._add_image_tag s title height width pixelated)
  | .str s => (none, d._add_image_tag s title height width pixelated)
  | .other t =>
      (some (.typeError ("image_link is of type " ++ t
        ++ ", but it should be pathlib.Path or str.")), d)

/-- The runtime-inclusion mode `add_plotly_figure` computes from the
document flag and the caller request, together with the new flag value. -/
def chart_mode (flag : Bool) (requested : Bool) : PlotlyMode × Bool :=
  if flag then (.omit, flag)
  else if requested then (.inline, true)
  else (.cdn, flag)

/-- The runtime-inclusion modes passed to the external renderer by a
sequence of `add_plotly_figure` calls with the given requests, starting
from the given flag value. -/
def chart_modes : Bool → List Bool → List PlotlyMode
  | _, [] => []
  | flag, r :: rs =>
      (chart_mode flag r).1 :: chart_modes (chart_mode flag r).2 rs

/-- A figure whose external renderer always raises (used as a concrete
witness input). -/
def failFig : Figure :=
  ⟨fun _ => .error (.runtimeError "render failed")⟩

/-- `add_plotly_figure`: type-check, update mode and flag, call the
external renderer, and append the wrapped fragment.  If the renderer
raises, the exception propagates after the flag update. -/
def HTMLDocument.add_plotly_figure (d : HTMLDocument) (fig : FigInput)
    (include_plotlyjs : Bool := true) : Option PyError × HTMLDocument :=
  match fig with
  | .other t =>
      (some (.typeError ("fig is of type " ++ t
        ++ ", but it should be plotly.graph_objs.Figure.")), d)
  | .figure f =>
      let mf := chart_mode d.is_plotlyjs_included include_plotlyjs
      let d1 := { d with is_plotlyjs_included := mf.2 }
      match f.toHtml mf.1 with
      | .error e => (some e, d1)
      | .ok html =>
          (none, { d1 with body := d1.body ++
            ("<div class=\"plotly-figure\">\n" ++ html ++ "\n</div>\n") })

/-! ## Operation sequences and reachability -/

/-- One call of a body-appending operation, with its arguments. -/
inductive Op where
  | header (header level align : String)
  | text (text size indent align : String)
  | lineBreak
  | pageBreak
  | table (input : TableInput)
  | image (image : ImageInput) (title height width : Attr) (pixelated : Bool)
  | imageLink (link : PathOrStr) (title height width : Attr) (pixelated : Bool)
  | chart (input : FigInput) (include_plotlyjs : Bool)

/-- Run one operation: the raised error (if any) and the state of the
object when the call returns or the exception propagates. -/
def apply_op (d : HTMLDocument) : Op → Option PyError × HTMLDocument
  | .header h l a => (none, d.add_header h l a)
  | .text t s i a => (none, d.add_text t s i a)
  | .lineBreak => (none, d.add_line_break)
  | .pageBreak => (none, d.add_page_break)
  | .table input => d.add_table input
  | .image img t h w p => d.add_image img t h w p
  | .imageLink l t h w p => d.add_image_link l t h w p
  | .chart input inc => d.add_plotly_figure input inc

/-- The document states reachable through the class interface: freshly
constructed, or obtained from a reachable state by any operation
(including a failing one) or a setter. -/
inductive Reachable : HTMLDocument → Prop where
  | base (s : String) : Reachable (HTMLDocument.init s)
  | step (d : HTMLDocument) (op : Op) : Reachable d → Reachable (apply_op d op).2
  | styleStep (d : HTMLDocument) (s : String) : Reachable d → Reachable (d.set_style s)
  | titleStep (d : HTMLDocument) (t : String) : Reachable d → Reachable (d.set_title t)

/-! ## Spec-side templates (transcribed from the specification text, for
refinement comparison with the source-derived definitions) -/

/-- The serialization template exactly as the specification quotes it, as
one string with the four fields substituted verbatim. -/
def renderFromSpec (title style head body : String) : String :=
  "<!DOCTYPE html>\n<html lang=\"en\">\n<head>\n<meta charset=\"UTF-8\">\n<title>"
    ++ title
    ++ "</title>\n<style type=\"text/css\">\n"
    ++ style
    ++ "</style>\n"
    ++ head
    ++ "</head>\n<body>\n"
    ++ body
    ++ "</body>\n</html>\n"

/-- The image-tag template exactly as the specification quotes it, each
bracketed part present exactly when its argument is truthy. -/
def image_tag_spec (src : String) (title height width : Attr)
    (pixelated : Bool) : String :=
  "<img src=\"" ++ src ++ "\""
    ++ (if title.truthy then " title=\"" ++ title.fmt ++ "\"" else "")
    ++ (if height.truthy then " height=" ++ height.fmt else "")
    ++ (if width.truthy then " width=" ++ width.fmt else "")
    ++ " style=\"border:1px solid #021a40; margin: 3px 3px"
    ++ (if pixelated then "; image-rendering: pixelated" else "")
    ++ "\">\n"

/-! ## Theorems -/

/-- C1: `__str__` returns exactly the specified template with the current
title, style, head and body substituted verbatim, byte for byte. -/
theorem render_eq_spec_template (d : HTMLDocument) :
    d.render = renderFromSpec d.title d.style d.head d.body := by
  unfold HTMLDocument.render renderFromSpec
  simp only [String.append_assoc]
  rfl

/-- C8: serialization is a pure function of the four string fields — two
documents agreeing on title, style, head and body render identically,
whatever their `_is_plotlyjs_included` flags; rendering twice with no
mutation is the special case `d1 = d2`. -/
theorem render_pure_in_four_fields (d1 d2 : HTMLDocument)
    (ht : d1.title = d2.title) (hs : d1.style = d2.style)
    (hh : d1.head = d2.head) (hb : d1.body = d2.body) :
    d1.render = d2.render := by
  unfold HTMLDocument.render
  rw [ht, hs, hh, hb]

/-- C8 witness: two concrete documents differing only in the runtime flag
render to the same string. -/
theorem render_pure_in_four_fields_witness :
    HTMLDocument.render ⟨"s", "t", "h", "b", false⟩
      = HTMLDocument.render ⟨"s", "t", "h", "b", true⟩ :=
  render_pure_in_four_fields _ _ rfl rfl rfl rfl

lemma append_ne_empty_left (a b : String) (h : a ≠ "") : a ++ b ≠ "" := by
  intro hc
  apply h
  have hd := congrArg String.data hc
  rw [String.data_append] at hd
  exact String.ext (List.append_eq_nil.mp hd).1

lemma append_ne_empty_right (a b : String) (h : b ≠ "") : a ++ b ≠ "" := by
  intro hc
  apply h
  have hd := congrArg String.data hc
  rw [String.data_append] at hd
  exact String.ext (List.append_eq_nil.mp hd).2

lemma image_tag_eq_spec (src : String) (tl hh ww : Attr) (px : Bool) :
    image_tag src tl hh ww px = image_tag_spec src tl hh ww px := by
  cases h1 : tl.truthy <;> cases h2 : hh.truthy <;> cases h3 : ww.truthy <;>
    cases px <;>
      simp only [image_tag, image_tag_spec, h1, h2, h3, if_true, if_false,
        Bool.false_eq_true, ite_true, ite_false, String.append_empty,
        String.empty_append, String.append_assoc]

/-- C6: every call of the shared image-tag renderer appends exactly the
specified template, each optional attribute present exactly when its
argument is truthy and the pixelated suffix exactly when the flag is set. -/
theorem add_image_tag_appends_spec_template (d : HTMLDocument) (src : String)
    (tl hh ww : Attr) (px : Bool) :
    (d._add_image_tag src tl hh ww px).body
      = d.body ++ image_tag_spec src tl hh ww px := by
  rw [HTMLDocument._add_image_tag, image_tag_eq_spec]

/-- C3: every invalid-argument failure of `add_table`, `add_image_link`,
`add_plotly_figure` or `add_image` (wrong dtype, wrong dimensionality, or
unsupported image-source type) raises before any mutation: an error is
returned and the document, all five fields included, is exactly as before
the call. -/
theorem invalid_argument_leaves_document_unchanged (d : HTMLDocument) :
    (∀ t, (d.add_table (.other t)).1.isSome ∧ (d.add_table (.other t)).2 = d)
  ∧ (∀ t tl hh ww px, (d.add_image_link (.other t) tl hh ww px).1.isSome
      ∧ (d.add_image_link (.other t) tl hh ww px).2 = d)
  ∧ (∀ t inc, (d.add_plotly_figure (.other t) inc).1.isSome
      ∧ (d.add_plotly_figure (.other t) inc).2 = d)
  ∧ (∀ dt nd png tl hh ww px, dt ≠ "uint8" →
      (d.add_image (.ndarray dt nd png) tl hh ww px).1.isSome
        ∧ (d.add_image (.ndarray dt nd png) tl hh ww px).2 = d)
  ∧ (∀ nd png tl hh ww px, ¬ (nd = 2 ∨ nd = 3) →
      (d.add_image (.ndarray "uint8" nd png) tl hh ww px).1.isSome
        ∧ (d.add_image (.ndarray "uint8" nd png) tl hh ww px).2 = d)
  ∧ (∀ t tl hh ww px, (d.add_image (.other t) tl hh ww px).1.isSome
      ∧ (d.add_image (.other t) tl hh ww px).2 = d) := by
  refine ⟨fun t => ?_, fun t tl hh ww px => ?_, fun t inc => ?_,
    fun dt nd png tl hh ww px hdt => ?_, fun nd png tl hh ww px hnd => ?_,
    fun t tl hh ww px => ?_⟩
  · simp [HTMLDocument.add_table]
  · simp [HTMLDocument.add_image_link]
  · simp [HTMLDocument.add_plotly_figure]
  · simp [HTMLDocument.add_image, HTMLDocument._encode_image, hdt]
  · simp [HTMLDocument.add_image, HTMLDocument._encode_image, hnd]
  · simp [HTMLDocument.add_image, HTMLDocument._encode_image]

/-- C3 witness: a wrong-dtype `add_image` call on a fresh document raises
and leaves the document unchanged. -/
theorem invalid_argument_leaves_document_unchanged_witness :
    ((HTMLDocument.init "").add_image (.ndarray "float64" 2 [])
        .pyNone .pyNone .pyNone false).1.isSome
  ∧ ((HTMLDocument.init "").add_image (.ndarray "float64" 2 [])
        .pyNone .pyNone .pyNone false).2 = HTMLDocument.init "" :=
  (invalid_argument_leaves_document_unchanged
    (HTMLDocument.init "")).2.2.2.1 "float64" 2 [] .pyNone .pyNone .pyNone false
    (by decide)

/-- C5: a pixel-array `add_image` call with a dtype other than uint8 fails
with the dtype error, and one with uint8 dtype but a dimensionality other
than 2 or 3 fails with the ndim error; the two raise sites are distinct
and in both cases the document is returned exactly as it was. -/
theorem array_dtype_and_ndim_errors (d : HTMLDocument) (dt : String)
    (nd : Nat) (png : List Nat) (tl hh ww : Attr) (px : Bool) :
    (dt ≠ "uint8" →
      d.add_image (.ndarray dt nd png) tl hh ww px
        = (some (.runtimeError ("image.dtype is " ++ dt
            ++ ", but it should be uint8.")), d))
  ∧ (¬ (nd = 2 ∨ nd = 3) →
      d.add_image (.ndarray "uint8" nd png) tl hh ww px
        = (some (.runtimeError ("image.ndim is " ++ toString nd
            ++ ", but it should be 2 or 3.")), d)) := by
  constructor
  · intro hdt
    simp [HTMLDocument.add_image, HTMLDocument._encode_image, hdt]
  · intro hnd
    simp [HTMLDocument.add_image, HTMLDocument._encode_image, hnd]

/-- C5 witness: a float64 array raises the dtype error and a 4-dimensional
uint8 array raises the ndim error, each leaving the fresh document
unchanged. -/
theorem array_dtype_and_ndim_errors_witness :
    (HTMLDocument.init "").add_image (.ndarray "float64" 2 [])
        .pyNone .pyNone .pyNone false
      = (some (.runtimeError ("image.dtype is " ++ "float64"
          ++ ", but it should be uint8.")), HTMLDocument.init "")
  ∧ (HTMLDocument.init "").add_image (.ndarray "uint8" 4 [])
        .pyNone .pyNone .pyNone false
      = (some (.runtimeError ("image.ndim is " ++ toString 4
          ++ ", but it should be 2 or 3.")), HTMLDocument.init "") :=
  ⟨(array_dtype_and_ndim_errors (HTMLDocument.init "") "float64" 2 []
      .pyNone .pyNone .pyNone false).1 (by decide),
   (array_dtype_and_ndim_errors (HTMLDocument.init "") "uint8" 4 []
      .pyNone .pyNone .pyNone false).2 (by decide)⟩

/-- C7: every successful append operation extends the body: the previous
body is a verbatim prefix of the new one and the appended suffix is
non-empty. -/
theorem body_grows_on_success (d : HTMLDocument) (op : Op)
    (h : (apply_op d op).1 = none) :
    ∃ s, (apply_op d op).2.body = d.body ++ s ∧ s ≠ "" := by
  cases op with
  | header hd lv al =>
      refine ⟨_, rfl, ?_⟩
      repeat apply append_ne_empty_left
      decide
  | text tx sz ind al =>
      refine ⟨_, rfl, ?_⟩
      repeat apply append_ne_empty_left
      decide
  | lineBreak => exact ⟨"<br>\n", rfl, by decide⟩
  | pageBreak =>
      exact ⟨"<p style=\"page-break-after: always;\">&nbsp;</p>\n", rfl, by decide⟩
  | table input =>
      cases input with
      | other t => exact absurd h (by simp [apply_op, HTMLDocument.add_table])
      | dataframe x =>
          refine ⟨_, rfl, ?_⟩
          repeat apply append_ne_empty_left
          decide
  | image img tl hh ww px =>
      simp only [apply_op, HTMLDocument.add_image] at h ⊢
      cases him : HTMLDocument._encode_image img with
      | error e => rw [him] at h; exact Option.noConfusion h
      | ok s =>
          refine ⟨_, rfl, ?_⟩
          unfold image_tag
          apply append_ne_empty_right
          decide
  | imageLink l tl hh ww px =>
      cases l with
      | other t => exact absurd h (by simp [apply_op, HTMLDocument.add_image_link])
      | path s =>
          refine ⟨_, rfl, ?_⟩
          unfold image_tag
          apply append_ne_empty_right
          decide
      | str s =>
          refine ⟨_, rfl, ?_⟩
          unfold image_tag
          apply append_ne_empty_right
          decide
  | chart input inc =>
      cases input with
      | other t =>
          exact absurd h (by simp [apply_op, HTMLDocument.add_plotly_figure])
      | figure f =>
          simp only [apply_op, HTMLDocument.add_plotly_figure] at h ⊢
          cases hf : f.toHtml (chart_mode d.is_plotlyjs_included inc).1 with
          | error e => rw [hf] at h; exact Option.noConfusion h
          | ok html =>
              refine ⟨_, rfl, ?_⟩
              repeat apply append_ne_empty_left
              decide

/-- C7 witness: one concrete successful call extends a concrete body. -/
theorem body_grows_on_success_witness :
    ∃ s, (apply_op (HTMLDocument.init "") Op.lineBreak).2.body
        = (HTMLDocument.init "").body ++ s ∧ s ≠ "" :=
  body_grows_on_success (HTMLDocument.init "") Op.lineBreak rfl

lemma head_apply_op (d : HTMLDocument) (op : Op) :
    (apply_op d op).2.head = d.head := by
  cases op with
  | header hd lv al => rfl
  | text tx sz ind al => rfl
  | lineBreak => rfl
  | pageBreak => rfl
  | table input => cases input <;> rfl
  | image img tl hh ww px =>
      simp only [apply_op, HTMLDocument.add_image]
      cases him : HTMLDocument._encode_image img <;> rfl
  | imageLink l tl hh ww px => cases l <;> rfl
  | chart input inc =>
      cases input with
      | other t => rfl
      | figure f =>
          simp only [apply_op, HTMLDocument.add_plotly_figure]
          cases hf : f.toHtml (chart_mode d.is_plotlyjs_included inc).1 <;>
            rfl

/-- C9: the head field is empty at construction and no operation or setter
ever modifies it, so every reachable document state has an empty head. -/
theorem head_always_empty (d : HTMLDocument) (h : Reachable d) :
    d.head = "" := by
  induction h with
  | base s => rfl
  | step d0 op _ ih => rw [head_apply_op]; exact ih
  | styleStep d0 s _ ih => exact ih
  | titleStep d0 t _ ih => exact ih

/-- C9 witness: the freshly constructed document has an empty head. -/
theorem head_always_empty_witness : (HTMLDocument.init "").head = "" :=
  head_always_empty _ (Reachable.base "")

/-- C10: when the type check passes on a document whose runtime flag is
false and inline inclusion is requested, the flag is set to true before
the external fragment renderer runs, so if the renderer fails the
exception propagates with the body unchanged but the flag already true. -/
theorem chart_flag_set_before_render (d : HTMLDocument) (f : Figure)
    (e : PyError) (hflag : d.is_plotlyjs_included = false)
    (hfail : f.toHtml PlotlyMode.inline = .error e) :
    d.add_plotly_figure (.figure f) true
      = (some e, { d with is_plotlyjs_included := true }) := by
  simp only [HTMLDocument.add_plotly_figure, chart_mode, hflag,
    Bool.false_eq_true, if_false, if_true, ite_true, ite_false]
  rw [hfail]

/-- C10 witness: the failing renderer leaves the body of a fresh document
empty but the runtime flag set. -/
theorem chart_flag_set_before_render_witness :
    (HTMLDocument.init "").add_plotly_figure (.figure failFig) true
      = (some (.runtimeError "render failed"),
          { HTMLDocument.init "" with is_plotlyjs_included := true }) :=
  chart_flag_set_before_render _ _ _ rfl rfl

lemma chart_modes_true (rs : List Bool) :
    chart_modes true rs = List.replicate rs.length PlotlyMode.omit := by
  induction rs with
  | nil => rfl
  | cons r rs ih => simp [chart_modes, chart_mode, ih, List.replicate_succ]

lemma chart_modes_cons_false (rs : List Bool) :
    chart_modes false (false :: rs) = PlotlyMode.cdn :: chart_modes false rs := by
  simp [chart_modes, chart_mode]

lemma chart_modes_cons_true (rs : List Bool) :
    chart_modes false (true :: rs) = PlotlyMode.inline :: chart_modes true rs := by
  simp [chart_modes, chart_mode]

lemma getD_replicate_omit (n k : Nat) :
    (List.replicate n PlotlyMode.omit).getD k PlotlyMode.omit
      = PlotlyMode.omit := by
  induction n generalizing k with
  | zero => simp [List.getD]
  | succ m ih =>
      cases k with
      | zero => simp [List.replicate_succ]
      | succ j => simp only [List.replicate_succ, List.getD_cons_succ]; exact ih j

lemma count_inline_le_one (reqs : List Bool) :
    (chart_modes false reqs).count PlotlyMode.inline ≤ 1 := by
  induction reqs with
  | nil => simp [chart_modes]
  | cons r rs ih =>
      cases r with
      | false =>
          rw [chart_modes_cons_false]
          simpa [List.count_cons] using ih
      | true =>
          rw [chart_modes_cons_true, chart_modes_true]
          simp [List.count_cons, List.count_replicate]

lemma all_lt_succ_cons (r : Bool) (rs : List Bool) (k : Nat) :
    (∀ j, j < k + 1 → (r :: rs).getD j false = false)
      ↔ (r = false ∧ ∀ j, j < k → rs.getD j false = false) := by
  constructor
  · intro hj
    refine ⟨by simpa using hj 0 (Nat.succ_pos k), fun j hjk => ?_⟩
    simpa using hj (j + 1) (by omega)
  · rintro ⟨hr, hj⟩ j hjk
    cases j with
    | zero => simpa using hr
    | succ m => simpa using hj m (by omega)

lemma modes_inline_iff (reqs : List Bool) (i : Nat) (h : i < reqs.length) :
    ((chart_modes false reqs).getD i PlotlyMode.omit = PlotlyMode.inline
      ↔ reqs.getD i false = true ∧ ∀ j, j < i → reqs.getD j false = false) := by
  induction reqs generalizing i with
  | nil => simp at h
  | cons r rs ih =>
      cases r with
      | false =>
          cases i with
          | zero => simp [chart_modes_cons_false]
          | succ k =>
              have hk : k < rs.length := by simpa using h
              rw [chart_modes_cons_false]
              simp only [List.getD_cons_succ]
              rw [all_lt_succ_cons]
              simpa using ih k hk
      | true =>
          cases i with
          | zero => simp [chart_modes_cons_true]
          | succ k =>
              rw [chart_modes_cons_true, chart_modes_true]
              simp only [List.getD_cons_succ, getD_replicate_omit]
              exact iff_of_false (by decide)
                (fun hc => by simpa using hc.2 0 (Nat.succ_pos k))

/-- C2: the mode passed to the chart renderer is forced to omit whenever
the flag is already true (which also keeps the flag true, so it never
reverts), is inline with the flag set when inline is first requested, and
is cdn with the flag left false otherwise; the flag stored by
`add_plotly_figure` follows `chart_mode` even when the renderer fails;
and across any request sequence started with the flag false the inline
mode is passed at most once, exactly on the first call requesting it. -/
theorem chart_runtime_included_once (reqs : List Bool) :
    (∀ r, chart_mode true r = (PlotlyMode.omit, true))
  ∧ chart_mode false true = (PlotlyMode.inline, true)
  ∧ chart_mode false false = (PlotlyMode.cdn, false)
  ∧ (∀ (d : HTMLDocument) (f : Figure) (inc : Bool),
      ((d.add_plotly_figure (.figure f) inc).2).is_plotlyjs_included
        = (chart_mode d.is_plotlyjs_included inc).2)
  ∧ (chart_modes false reqs).count PlotlyMode.inline ≤ 1
  ∧ (∀ i, i < reqs.length →
      ((chart_modes false reqs).getD i PlotlyMode.omit = PlotlyMode.inline
        ↔ reqs.getD i false = true
          ∧ ∀ j, j < i → reqs.getD j false = false)) := by
  refine ⟨fun r => by simp [chart_mode], by simp [chart_mode],
    by simp [chart_mode], fun d f inc => ?_, count_inline_le_one reqs,
    fun i hi => modes_inline_iff reqs i hi⟩
  simp only [HTMLDocument.add_plotly_figure]
  cases f.toHtml (chart_mode d.is_plotlyjs_included inc).1 <;> rfl

/-- C2 witness: with requests [no, yes, yes] the renderer receives the
inline mode exactly at index 1, the first requesting call. -/
theorem chart_runtime_included_once_witness :
    (chart_modes false [false, true, true]).getD 1 PlotlyMode.omit
      = PlotlyMode.inline :=
  ((chart_runtime_included_once [false, true, true]).2.2.2.2.2 1
      (by decide)).mpr ⟨by decide, by decide⟩

lemma b64val_b64char : ∀ n, n < 64 → b64val (b64char n) = some n := by decide

lemma b64char_ne_pad : ∀ n, n < 64 → b64char n ≠ '=' := by decide

lemma b64_roundtrip : ∀ (bs : List Nat), (∀ b ∈ bs, b < 256) →
    b64decode (b64encodeList bs) = some bs
  | [], _ => rfl
  | [a], h => by
      have ha : a < 256 := h a (by simp)
      have h1 : a / 4 < 64 := by omega
      have h2 : a % 4 * 16 < 64 := by omega
      simp only [b64encodeList, b64decode, b64val_b64char _ h1,
        b64val_b64char _ h2]
      simp only [if_pos rfl, and_self, if_true, ite_true, Option.some.injEq,
        List.cons.injEq, and_true]
      omega
  | [a, b], h => by
      have ha : a < 256 := h a (by simp)
      have hb : b < 256 := h b (by simp)
      have h1 : a / 4 < 64 := by omega
      have h2 : a % 4 * 16 + b / 16 < 64 := by omega
      have h3 : b % 16 * 4 < 64 := by omega
      simp only [b64encodeList, b64decode, b64val_b64char _ h1,
        b64val_b64char _ h2, b64val_b64char _ h3,
        if_neg (b64char_ne_pad _ h3)]
      simp only [if_pos rfl, ite_true, Option.some.injEq, List.cons.injEq,
        and_true]
      constructor <;> omega
  | a :: b :: c :: rest, h => by
      have ha : a < 256 := h a (by simp)
      have hb : b < 256 := h b (by simp)
      have hc : c < 256 := h c (by simp)
      have h1 : a / 4 < 64 := by omega
      have h2 : a % 4 * 16 + b / 16 < 64 := by omega
      have h3 : b % 16 * 4 + c / 64 < 64 := by omega
      have h4 : c % 64 < 64 := by omega
      have hrest := b64_roundtrip rest (fun x hx => h x (by simp [hx]))
      simp only [b64encodeList, b64decode, b64val_b64char _ h1,
        b64val_b64char _ h2, b64val_b64char _ h3, b64val_b64char _ h4,
        if_neg (b64char_ne_pad _ h3), if_neg (b64char_ne_pad _ h4), hrest]
      simp only [Option.some.injEq, List.cons.injEq, and_true, true_and]
      refine ⟨by omega, by omega, by omega⟩

/-- C4 (amended): the `src` emitted by a successful `add_image` is the
prefix `data:image/png;base64, ` — with one space after the comma, as the
source f-string writes it — immediately followed by the base64 encoding of
the produced bytes (PNG-encoder output for array or decoded-image input,
raw file bytes for path or string input), the same prefix for every input
kind regardless of the original encoding; stripping that exact prefix and
base64-decoding recovers the bytes. -/
theorem add_image_src_prefix_roundtrip (d : HTMLDocument) (png : List Nat)
    (tl hh ww : Attr) (px : Bool) (hb : ∀ b ∈ png, b < 256) :
    ((d.add_image (.pilImage png) tl hh ww px).2.body
      = d.body ++ image_tag ("data:image/png;base64, " ++ b64encode png)
          tl hh ww px)
  ∧ ((d.add_image (.ndarray "uint8" 2 png) tl hh ww px).2.body
      = d.body ++ image_tag ("data:image/png;base64, " ++ b64encode png)
          tl hh ww px)
  ∧ ((d.add_image (.ndarray "uint8" 3 png) tl hh ww px).2.body
      = d.body ++ image_tag ("data:image/png;base64, " ++ b64encode png)
          tl hh ww px)
  ∧ ((d.add_image (.path png) tl hh ww px).2.body
      = d.body ++ image_tag ("data:image/png;base64, " ++ b64encode png)
          tl hh ww px)
  ∧ ((d.add_image (.str png) tl hh ww px).2.body
      = d.body ++ image_tag ("data:image/png;base64, " ++ b64encode png)
          tl hh ww px)
  ∧ b64decode (b64encode png).toList = some png := by
  refine ⟨rfl, ?_, ?_, rfl, rfl, b64_roundtrip png hb⟩
  · simp [HTMLDocument.add_image, HTMLDocument._encode_image,
      HTMLDocument._add_image_tag]
  · simp [HTMLDocument.add_image, HTMLDocument._encode_image,
      HTMLDocument._add_image_tag]

/-- C4 witness: the amended statement evaluated on concrete PNG bytes. -/
theorem add_image_src_prefix_roundtrip_witness :
    (((HTMLDocument.init "").add_image (.pilImage [0, 255, 10])
        .pyNone .pyNone .pyNone false).2.body
      = (HTMLDocument.init "").body
          ++ image_tag ("data:image/png;base64, " ++ b64encode [0, 255, 10])
              .pyNone .pyNone .pyNone false)
  ∧ (((HTMLDocument.init "").add_image (.ndarray "uint8" 2 [0, 255, 10])
        .pyNone .pyNone .pyNone false).2.body
      = (HTMLDocument.init "").body
          ++ image_tag ("data:image/png;base64, " ++ b64encode [0, 255, 10])
              .pyNone .pyNone .pyNone false)
  ∧ (((HTMLDocument.init "").add_image (.ndarray "uint8" 3 [0, 255, 10])
        .pyNone .pyNone .pyNone false).2.body
      = (HTMLDocument.init "").body
          ++ image_tag ("data:image/png;base64, " ++ b64encode [0, 255, 10])
              .pyNone .pyNone .pyNone false)
  ∧ (((HTMLDocument.init "").add_image (.path [0, 255, 10])
        .pyNone .pyNone .pyNone false).2.body
      = (HTMLDocument.init "").body
          ++ image_tag ("data:image/png;base64, " ++ b64encode [0, 255, 10])
              .pyNone .pyNone .pyNone false)
  ∧ (((HTMLDocument.init "").add_image (.str [0, 255, 10])
        .pyNone .pyNone .pyNone false).2.body
      = (HTMLDocument.init "").body
          ++ image_tag ("data:image/png;base64, " ++ b64encode [0, 255, 10])
              .pyNone .pyNone .pyNone false)
  ∧ b64decode (b64encode [0, 255, 10]).toList = some [0, 255, 10] :=
  add_image_src_prefix_roundtrip (HTMLDocument.init "") [0, 255, 10]
    .pyNone .pyNone .pyNone false (by decide)

/-- C4 counterexample: for PNG bytes `[0]` the emitted body contains
`data:image/png;base64, AA==` — a space separates the claimed prefix
`data:image/png;base64,` from the base64 text, so the base64 encoding
does not immediately follow that prefix as the claim states. -/
theorem add_image_src_no_space_counterexample :
    (((HTMLDocument.init "").add_image (.pilImage [0])
        .pyNone .pyNone .pyNone false).2.body
      = "<img src=\"data:image/png;base64, AA==\" style=\"border:1px solid #021a40; margin: 3px 3px\">\n")
  ∧ (((HTMLDocument.init "").add_image (.pilImage [0])
        .pyNone .pyNone .pyNone false).2.body
      ≠ "<img src=\"" ++ ("data:image/png;base64," ++ b64encode [0])
          ++ "\" style=\"border:1px solid #021a40; margin: 3px 3px\">\n") := by
  constructor <;> decide
